import Mathlib

/-!
WebRTC credential broker (`app/webrtc.go`).

A shallow embedding of `app/webrtc.go` and a verification of its contract.

* Go strings are Lean `String`s; the conversion `[]byte(s)` is the UTF-8
  encoding `bytes s`, a list of natural numbers below 256.
* The standard-library pieces the file calls (`encoding/base64`,
  `crypto/sha1`, `crypto/hmac`, `strings.ToLower`, `strconv.FormatInt`,
  `time`) are written out from their published algorithms (RFC 4648,
  RFC 3174, RFC 2104).
* Everything the file reads from its surroundings (configuration, the
  clock, the random transaction id, the network, the JSON helpers of the
  `model` package) is a field of `Env`.
* Every function that may talk to the gateway returns its Go result
  together with the list of HTTP requests it sent, in order.
-/

namespace Webrtc

/-! ## Bytes of a string -/

/-- UTF-8 encoding of one code point, as in the Go conversion `[]byte(s)`. -/
def utf8EncodeChar (c : Char) : List Nat :=
  let v := c.toNat
  if v < 0x80 then [v]
  else if v < 0x800 then [0xC0 + v / 64, 0x80 + v % 64]
  else if v < 0x10000 then [0xE0 + v / 4096, 0x80 + v / 64 % 64, 0x80 + v % 64]
  else [0xF0 + v / 262144, 0x80 + v / 4096 % 64, 0x80 + v / 64 % 64, 0x80 + v % 64]

/-- Go `[]byte(s)`: the bytes of a string. -/
def bytes (s : String) : List Nat :=
  s.data.flatMap utf8EncodeChar

/-- Go `len(s)`: the number of bytes of a string. -/
def len (s : String) : Nat :=
  (bytes s).length

/-! ## `encoding/base64`, `StdEncoding` -/

/-- The character of a 6-bit value in the standard alphabet
`A–Z a–z 0–9 + /`. -/
def encodeStd (i : Nat) : Char :=
  if i < 26 then Char.ofNat (65 + i)
  else if i < 52 then Char.ofNat (97 + (i - 26))
  else if i < 62 then Char.ofNat (48 + (i - 52))
  else if i = 62 then '+'
  else '/'

/-- The 6-bit value of a character of the standard alphabet. -/
def decodeStd (c : Char) : Option Nat :=
  let v := c.toNat
  if 65 ≤ v ∧ v ≤ 90 then some (v - 65)
  else if 97 ≤ v ∧ v ≤ 122 then some (v - 97 + 26)
  else if 48 ≤ v ∧ v ≤ 57 then some (v - 48 + 52)
  else if c = '+' then some 62
  else if c = '/' then some 63
  else none

/-- The padding character of `StdEncoding`. -/
def StdPadding : Char := '='

/-- Encoding of a byte sequence: three bytes become four characters, and
a final group of one or two bytes is padded to four characters. -/
def encodeChars : List Nat → List Char
  | b0 :: b1 :: b2 :: rest =>
      encodeStd (b0 / 4) :: encodeStd (b0 % 4 * 16 + b1 / 16) ::
        encodeStd (b1 % 16 * 4 + b2 / 64) :: encodeStd (b2 % 64) :: encodeChars rest
  | [b0, b1] =>
      [encodeStd (b0 / 4), encodeStd (b0 % 4 * 16 + b1 / 16), encodeStd (b1 % 16 * 4), StdPadding]
  | [b0] => [encodeStd (b0 / 4), encodeStd (b0 % 4 * 16), StdPadding, StdPadding]
  | [] => []

/-- Go `base64.StdEncoding.EncodeToString`. -/
def EncodeToString (src : List Nat) : String :=
  String.mk (encodeChars src)

/-- Decoding of the character sequence, four characters at a time; padding
is accepted only at the end of the last group. -/
def decodeChars : List Char → Option (List Nat)
  | [] => some []
  | c0 :: c1 :: c2 :: c3 :: rest =>
      match decodeStd c0, decodeStd c1 with
      | some i0, some i1 =>
          if c2 = StdPadding then
            if c3 = StdPadding ∧ rest = [] then some [i0 * 4 + i1 / 16] else none
          else
            match decodeStd c2 with
            | none => none
            | some i2 =>
                if c3 = StdPadding then
                  if rest = [] then some [i0 * 4 + i1 / 16, i1 % 16 * 16 + i2 / 4] else none
                else
                  match decodeStd c3, decodeChars rest with
                  | some i3, some out =>
                      some ((i0 * 4 + i1 / 16) :: (i1 % 16 * 16 + i2 / 4) ::
                        (i2 % 4 * 64 + i3) :: out)
                  | _, _ => none
      | _, _ => none
  | _ => none

/-- Go `base64.StdEncoding.DecodeString`: line breaks are ignored, the rest
is decoded group by group. -/
def DecodeString (s : String) : Option (List Nat) :=
  decodeChars (s.data.filter (fun c => c != '\r' && c != '\n'))

/-! ## `crypto/sha1` (RFC 3174) -/

/-- Rotation to the left of a 32-bit word. -/
def rotl32 (x n : Nat) : Nat :=
  ((x <<< n) ||| (x >>> (32 - n))) % 2 ^ 32

/-- The big-endian bytes of a 32-bit word. -/
def be32 (w : Nat) : List Nat :=
  [w / 2 ^ 24 % 256, w / 2 ^ 16 % 256, w / 2 ^ 8 % 256, w % 256]

/-- The big-endian bytes of a 64-bit word. -/
def be64 (w : Nat) : List Nat :=
  be32 (w / 2 ^ 32 % 2 ^ 32) ++ be32 (w % 2 ^ 32)

/-- The padded message: a `0x80` byte, zero bytes up to 56 modulo 64, and
the length of the message in bits as a 64-bit word. -/
def sha1Pad (msg : List Nat) : List Nat :=
  msg ++ 0x80 :: List.replicate ((119 - msg.length % 64) % 64) 0 ++
    be64 (8 * msg.length % 2 ^ 64)

/-- The chaining value of SHA-1: five 32-bit words. -/
structure Sha1State where
  h0 : Nat
  h1 : Nat
  h2 : Nat
  h3 : Nat
  h4 : Nat
deriving DecidableEq, Repr

/-- The initial chaining value. -/
def sha1Init : Sha1State :=
  ⟨0x67452301, 0xEFCDAB89, 0x98BADCFE, 0x10325476, 0xC3D2E1F0⟩

/-- The big-endian words of a byte sequence (four bytes per word). -/
def wordsOf : List Nat → List Nat
  | b0 :: b1 :: b2 :: b3 :: rest =>
      (b0 * 2 ^ 24 + b1 * 2 ^ 16 + b2 * 2 ^ 8 + b3) :: wordsOf rest
  | _ => []

/-- The message schedule, newest word first: `n` more words are added to
`ws`, each one `rotl 1 (w[t-3] xor w[t-8] xor w[t-14] xor w[t-16])`. -/
def schedule : Nat → List Nat → List Nat
  | 0, ws => ws
  | n + 1, ws =>
      schedule n
        (rotl32 (ws.getD 2 0 ^^^ ws.getD 7 0 ^^^ ws.getD 13 0 ^^^ ws.getD 15 0) 1 :: ws)

/-- The round function and constant of round `t`. -/
def sha1F (t b c d : Nat) : Nat × Nat :=
  if t < 20 then ((b &&& c) ||| ((b ^^^ 0xFFFFFFFF) &&& d), 0x5A827999)
  else if t < 40 then (b ^^^ c ^^^ d, 0x6ED9EBA1)
  else if t < 60 then ((b &&& c) ||| (b &&& d) ||| (c &&& d), 0x8F1BBCDC)
  else (b ^^^ c ^^^ d, 0xCA62C1D6)

/-- The rounds of one block, from round `t` on, over the schedule words
that are left. -/
def sha1Rounds : Nat → List Nat → Sha1State → Sha1State
  | _, [], s => s
  | t, w :: ws, ⟨a, b, c, d, e⟩ =>
      let fk := sha1F t b c d
      sha1Rounds (t + 1) ws
        ⟨(rotl32 a 5 + fk.1 + e + fk.2 + w) % 2 ^ 32, a, rotl32 b 30, c, d⟩

/-- The compression of one 64-byte block into the chaining value. -/
def sha1Block (s : Sha1State) (block : List Nat) : Sha1State :=
  let w := (schedule 64 (wordsOf block).reverse).reverse
  let r := sha1Rounds 0 w s
  ⟨(s.h0 + r.h0) % 2 ^ 32, (s.h1 + r.h1) % 2 ^ 32, (s.h2 + r.h2) % 2 ^ 32,
    (s.h3 + r.h3) % 2 ^ 32, (s.h4 + r.h4) % 2 ^ 32⟩

/-- The compression of the first `n` blocks of the data. -/
def sha1Blocks : Nat → Sha1State → List Nat → Sha1State
  | 0, s, _ => s
  | n + 1, s, data => sha1Blocks n (sha1Block s (data.take 64)) (data.drop 64)

/-- The 20-byte SHA-1 digest of a message. -/
def sha1Sum (msg : List Nat) : List Nat :=
  let p := sha1Pad msg
  let s := sha1Blocks (p.length / 64) sha1Init p
  be32 s.h0 ++ be32 s.h1 ++ be32 s.h2 ++ be32 s.h3 ++ be32 s.h4

/-! ## `crypto/hmac` over SHA-1 (RFC 2104) -/

/-- The block size of SHA-1 in bytes. -/
def sha1BlockSize : Nat := 64

/-- The key of the HMAC, brought to one block: a longer key is replaced by
its digest, and the key is filled up with zero bytes. -/
def hmacKeyBlock (key : List Nat) : List Nat :=
  let k := if key.length > sha1BlockSize then sha1Sum key else key
  k ++ List.replicate (sha1BlockSize - k.length) 0

/-- The digest `H((K xor opad) ++ H((K xor ipad) ++ message))`. -/
def hmacSha1 (key msg : List Nat) : List Nat :=
  let k := hmacKeyBlock key
  sha1Sum (k.map (fun b => b ^^^ 0x5c) ++ sha1Sum (k.map (fun b => b ^^^ 0x36) ++ msg))

/-! ## `strings`, `strconv`, `time` -/

/-- Lower case of one code point: `A–Z` are mapped to `a–z`, the other
ASCII code points are kept, and a code point outside ASCII is mapped by the
Unicode table `unicodeToLower`. -/
def toLowerRune (unicodeToLower : Char → Char) (c : Char) : Char :=
  if c.toNat < 0x80 then
    if 65 ≤ c.toNat ∧ c.toNat ≤ 90 then Char.ofNat (c.toNat + 32) else c
  else unicodeToLower c

/-- Go `strings.ToLower`: every code point of the string in lower case. -/
def ToLower (unicodeToLower : Char → Char) (s : String) : String :=
  String.mk (s.data.map (toLowerRune unicodeToLower))

/-- Go `strconv.FormatInt(i, base)`: the digits of `i`, with a minus sign
in front of a negative number. -/
def FormatInt (i : Int) (base : Nat) : String :=
  if i < 0 then String.mk ('-' :: Nat.toDigits base i.natAbs)
  else String.mk (Nat.toDigits base i.natAbs)

/-- One period of a time zone, as a result of Go `Location.lookup`: the
offset in seconds east of UTC that is in force from the instant `start` up
to, but not including, the instant `stop`. -/
structure Zone where
  offset : Int
  start : Int
  stop : Int
deriving DecidableEq, Repr

/-- A time zone, as Go `time.Location`: `lookup sec` is the period in force
at the instant `sec` (seconds since the Unix epoch). -/
structure Location where
  lookup : Int → Zone

/-- The first instant of Go's zone tables (`alpha`). -/
def zoneAlpha : Int := -(2 ^ 63)

/-- The last instant of Go's zone tables (`omega`). -/
def zoneOmega : Int := 2 ^ 63 - 1

/-- Go `time.FixedZone`: the same offset at every instant. -/
def FixedZone (offset : Int) : Location :=
  ⟨fun _ => ⟨offset, zoneAlpha, zoneOmega⟩⟩

/-- Go `time.UTC`. -/
def UTC : Location := FixedZone 0

/-- The period of the instant `sec` in a zone that starts with `offset` at
`start` and changes to the offset `o` at each instant `w` of the list
`(w, o)`, in ascending order. -/
def lookupIn (offset start : Int) : List (Int × Int) → Int → Zone
  | [], _ => ⟨offset, start, zoneOmega⟩
  | (w, o) :: rest, sec => if sec < w then ⟨offset, start, w⟩ else lookupIn o w rest sec

/-- A zone given by its first offset and its transitions. -/
def Location.ofTransitions (first : Int) (tx : List (Int × Int)) : Location :=
  ⟨lookupIn first zoneAlpha tx⟩

/-- An instant with its time zone, as Go `time.Time`: seconds since the Unix
epoch, nanoseconds within the second, and the zone. -/
structure Time where
  sec : Int
  nsec : Nat
  loc : Location

/-- Go `t.Unix()`. -/
def Time.Unix (t : Time) : Int := t.sec

/-- The seconds of the local calendar and clock of `t` (Go `t.abs()`, counted
from the epoch): the instant plus the offset in force at it. -/
def Time.abs (t : Time) : Int := t.sec + (t.loc.lookup t.sec).offset

/-- Go `t.Date()`: the calendar day of `t` in its zone. The triple
year, month, day is represented by the ordinal of the day, counted from the
day of the epoch. -/
def Time.Date (t : Time) : Int := t.abs / 86400

/-- Go `t.Clock()`: hour, minute and second within the day of `t`. -/
def Time.Clock (t : Time) : Int × Int × Int :=
  let s := t.abs % 86400
  (s / 3600, s % 3600 / 60, s % 60)

/-- Go `time.Date(year, month, day, hour, min, sec, nsec, loc)`, with the
calendar day given by its ordinal. The local time is first taken as if it
were UTC; the zone is looked up at that instant, and when its offset is not
zero and the instant it leads to lies outside its period, the zone is looked
up again at that instant. A local time that a change of offset skips is
thereby given an instant that shows another local time. -/
def Date (day hour min sec : Int) (nsec : Nat) (loc : Location) : Time :=
  let unix := day * 86400 + hour * 3600 + min * 60 + sec
  let z := loc.lookup unix
  if z.offset ≠ 0 then
    let utc := unix - z.offset
    let offset := if utc < z.start ∨ utc ≥ z.stop then (loc.lookup utc).offset else z.offset
    ⟨unix - offset, nsec, loc⟩
  else
    ⟨unix, nsec, loc⟩

/-- Go `t.AddDate(0, 0, days)`: `time.Date` at the calendar day of `t` plus
`days`, with the clock and the zone of `t`. -/
def Time.AddDate (t : Time) (days : Int) : Time :=
  Webrtc.Date (t.Date + days) t.Clock.1 t.Clock.2.1 t.Clock.2.2 t.nsec t.loc

/-- Modelled from the spec: `utils.EndOfDay` is not among the sources. It
is "the end of the day": `time.Date` at 23:59:59 of the calendar day of
`t`, in the zone of `t`. -/
def EndOfDay (t : Time) : Time :=
  Webrtc.Date t.Date 23 59 59 0 t.loc

/-! ## The decimal numeral of a number -/

/-- The value of a sequence of decimal digits. -/
def digitsValue (ds : List Char) : Nat :=
  ds.foldl (fun a c => 10 * a + (c.toNat - 48)) 0

/-- Whether `ds` is the decimal numeral of `n`: at least one character, only
the digits `0`–`9`, no zero in front unless the numeral is `0`, and the
value `n`. -/
def isDecimalNat (ds : List Char) (n : Nat) : Bool :=
  !ds.isEmpty && ds.all (fun c => decide (48 ≤ c.toNat ∧ c.toNat ≤ 57)) &&
    (ds.head? != some '0' || ds == ['0']) && digitsValue ds == n

/-- Whether `s` is the decimal numeral of the integer `i`: the numeral of its
absolute value, after a minus sign when `i` is negative. -/
def isDecimalOf (s : String) (i : Int) : Bool :=
  if i < 0 then
    match s.data with
    | '-' :: ds => isDecimalNat ds i.natAbs
    | _ => false
  else isDecimalNat s.data i.natAbs

/-! ## The `model` package and the HTTP client -/

/-- Modelled from the spec: `model.AppError` is not among the sources. An
application error carries the place it was raised, its id, a detail text and
an HTTP status. -/
structure AppError where
  Where : String
  Id : String
  DetailedError : String
  StatusCode : Int
deriving DecidableEq, Repr

/-- Modelled from the spec: `model.NewAppError(where, id, params, details,
status)` is not among the sources; every call of the file passes `nil` for
`params`. -/
def NewAppError (where_ id details : String) (status : Int) : AppError :=
  ⟨where_, id, details, status⟩

/-- Go `http.StatusNotImplemented`. -/
def StatusNotImplemented : Int := 501

/-- Go `http.StatusInternalServerError`. -/
def StatusInternalServerError : Int := 500

/-- The type `model.WebrtcInfoResponse`; a field that is not set holds the
empty string. -/
structure WebrtcInfoResponse where
  Token : String
  GatewayUrl : String
  GatewayType : String
  StunUri : String := ""
  TurnUri : String := ""
  TurnPassword : String := ""
  TurnUsername : String := ""
deriving DecidableEq, Repr

/-- The decoded answer of the Janus gateway. -/
structure JanusGatewayResponse where
  Status : String
deriving DecidableEq, Repr

/-- The decoded answer of the Kopano Webmeetings gateway. -/
structure KopanoWebmeetingsResponse where
  Value : String
deriving DecidableEq, Repr

/-- A Go `map[string]string`, as the list of its entries. -/
structure GoMap where
  entries : List (String × String)
deriving DecidableEq, Repr

/-- Go `make(map[string]string)`. -/
def GoMap.make : GoMap := ⟨[]⟩

/-- Go `m[k] = v`. -/
def GoMap.set (m : GoMap) (k v : String) : GoMap :=
  ⟨m.entries.filter (fun p => p.1 != k) ++ [(k, v)]⟩

/-- Go `m[k]`: the value of the key, the empty string when it is absent. -/
def GoMap.get (m : GoMap) (k : String) : String :=
  (m.entries.lookup k).getD ""

/-- An outgoing HTTP request. -/
structure Request where
  Method : String
  Url : String
  Body : String
  Header : List (String × String)
deriving DecidableEq, Repr

/-- Go `http.NewRequest(method, url, strings.NewReader(body))`, for an
address that parses; the source drops the error result of the call. -/
def NewRequest (method url body : String) : Request :=
  ⟨method, url, body, []⟩

/-- Go `rq.Header.Set(key, value)`. -/
def Request.HeaderSet (rq : Request) (key value : String) : Request :=
  { rq with Header := rq.Header.filter (fun p => p.1 != key) ++ [(key, value)] }

/-- The part of an HTTP response the file reads. -/
structure Response where
  StatusCode : Int
  Body : String
deriving DecidableEq, Repr

/-- The outcome of `utils.HttpClient(true).Do(rq)`: a transport failure
with the text of `err.Error()`, or a response. -/
inductive DoResult where
  | err (msg : String)
  | ok (rp : Response)
deriving DecidableEq, Repr

/-- The settings `utils.Cfg.WebrtcSettings`. -/
structure WebrtcSettings where
  Enable : Bool
  GatewayType : String
  GatewayWebsocketUrl : String
  GatewayAdminUrl : String
  GatewayAdminSecret : String
  StunURI : String
  TurnURI : String
  TurnUsername : String
  TurnSharedKey : String
deriving DecidableEq, Repr

/-- The surroundings of a call: the configuration, the clock, the random
id of `model.NewId()`, the gateway behind the HTTP client, and the helpers
of the `model` package that are not among the sources, taken as they are:
`MapToJson`, `AppErrorFromJson`, `JanusGatewayResponseFromJson` and
`KopanoWebmeetingsResponseFromJson` (each one is taken to yield a decoded
value for every body it is given), and the Unicode table of
`strings.ToLower`. -/
structure Env where
  Cfg : WebrtcSettings
  Now : Time
  NewId : String
  Do : Request → DoResult
  MapToJson : GoMap → String
  AppErrorFromJson : String → AppError
  JanusGatewayResponseFromJson : String → JanusGatewayResponse
  KopanoWebmeetingsResponseFromJson : String → KopanoWebmeetingsResponse
  unicodeToLower : Char → Char

/-! ## `app/webrtc.go` -/

/-- The function `GenerateTurnPassword` (lines 111–116). -/
def GenerateTurnPassword (username secret : String) : String :=
  let key := bytes secret
  EncodeToString (hmacSha1 key (bytes username))

/-- The function `GetJanusWebrtcToken` (lines 61–86): the Go result and the
requests sent. -/
def GetJanusWebrtcToken (env : Env) (sessionId : String) :
    (String × Option AppError) × List Request :=
  let token := EncodeToString (bytes sessionId)
  let data := GoMap.make
  let data := data.set "janus" "add_token"
  let data := data.set "token" token
  let data := data.set "transaction" env.NewId
  let data := data.set "admin_secret" env.Cfg.GatewayAdminSecret
  let rq := NewRequest "POST" env.Cfg.GatewayAdminUrl (env.MapToJson data)
  let rq := rq.HeaderSet "Content-Type" "application/json"
  match env.Do rq with
  | .err e =>
      (("", some (NewAppError "WebRTC.Token" "model.client.connecting.app_error" e
        StatusInternalServerError)), [rq])
  | .ok rp =>
      if rp.StatusCode ≥ 300 then
        (("", some (env.AppErrorFromJson rp.Body)), [rq])
      else
        let janusResponse := env.JanusGatewayResponseFromJson rp.Body
        if janusResponse.Status ≠ "success" then
          (("", some (NewAppError "getWebrtcToken" "api.webrtc.register_token.app_error" ""
            StatusInternalServerError)), [rq])
        else
          ((token, none), [rq])

/-- The function `GetKopanoWebmeetingsWebrtcToken` (lines 88–109): the Go
result and the requests sent. -/
def GetKopanoWebmeetingsWebrtcToken (env : Env) (sessionId : String) :
    (String × Option AppError) × List Request :=
  let data := GoMap.make
  let data := data.set "type" "Token"
  let data := data.set "id" sessionId
  let rq := NewRequest "POST" (env.Cfg.GatewayAdminUrl ++ "/auth/tokens") (env.MapToJson data)
  let rq := rq.HeaderSet "Content-Type" "application/json"
  let rq := rq.HeaderSet "Authorization" ("Bearer " ++ env.Cfg.GatewayAdminSecret)
  match env.Do rq with
  | .err e =>
      (("", some (NewAppError "WebRTC.Token" "model.client.connecting.app_error" e
        StatusInternalServerError)), [rq])
  | .ok rp =>
      if rp.StatusCode ≥ 300 then
        (("", some (env.AppErrorFromJson rp.Body)), [rq])
      else
        let kwmResponse := env.KopanoWebmeetingsResponseFromJson rp.Body
        if kwmResponse.Value = "" then
          (("", some (NewAppError "getWebrtcToken" "api.webrtc.register_token.app_error" ""
            StatusInternalServerError)), [rq])
        else
          ((kwmResponse.Value, none), [rq])

/-- The function `GetWebrtcToken` (lines 47–59). -/
def GetWebrtcToken (env : Env) (sessionId : String) :
    (String × Option AppError) × List Request :=
  if !env.Cfg.Enable then
    (("", some (NewAppError "WebRTC.getWebrtcToken" "api.webrtc.disabled.app_error" ""
      StatusNotImplemented)), [])
  else if ToLower env.unicodeToLower env.Cfg.GatewayType = "kopano-webmeetings" then
    GetKopanoWebmeetingsWebrtcToken env sessionId
  else
    GetJanusWebrtcToken env sessionId

/-- The function `GetWebrtcInfoForSession` (lines 19–45): the Go result and
the requests sent. -/
def GetWebrtcInfoForSession (env : Env) (sessionId : String) :
    (Option WebrtcInfoResponse × Option AppError) × List Request :=
  match GetWebrtcToken env sessionId with
  | ((_, some err), sent) => ((none, some err), sent)
  | ((token, none), sent) =>
      let result : WebrtcInfoResponse :=
        { Token := token
          GatewayUrl := env.Cfg.GatewayWebsocketUrl
          GatewayType := env.Cfg.GatewayType }
      let result :=
        if len env.Cfg.StunURI > 0 then { result with StunUri := env.Cfg.StunURI } else result
      let result :=
        if len env.Cfg.TurnURI > 0 then
          let timestamp := FormatInt (EndOfDay (env.Now.AddDate 1)).Unix 10
          let username := timestamp ++ ":" ++ env.Cfg.TurnUsername
          { result with
            TurnUri := env.Cfg.TurnURI
            TurnPassword := GenerateTurnPassword username env.Cfg.TurnSharedKey
            TurnUsername := username }
        else result
      ((some result, none), sent)

/-- The function `RevokeWebrtcToken` (lines 118–131): the requests sent; the
response is dropped. -/
def RevokeWebrtcToken (env : Env) (sessionId : String) : List Request :=
  let token := EncodeToString (bytes sessionId)
  let data := GoMap.make
  let data := data.set "janus" "remove_token"
  let data := data.set "token" token
  let data := data.set "transaction" env.NewId
  let data := data.set "admin_secret" env.Cfg.GatewayAdminSecret
  let rq := NewRequest "POST" env.Cfg.GatewayAdminUrl (env.MapToJson data)
  let rq := rq.HeaderSet "Content-Type" "application/json"
  [rq]

/-! ## Case variants and sample surroundings -/

/-- Whether `s` is `t` up to the case of its ASCII letters: the two strings
have the same length and each code point of `s` is the one of `t`, its upper
case or its lower case. -/
def isCaseVariant (s t : String) : Bool :=
  s.data.length == t.data.length &&
    (s.data.zip t.data).all (fun p => p.1 == p.2 || p.1 == p.2.toUpper || p.1 == p.2.toLower)

/-- A configuration with every setting filled in, for the given feature
switch, gateway type and TURN address. -/
def sampleCfg (enable : Bool) (gatewayType turnURI : String) : WebrtcSettings where
  Enable := enable
  GatewayType := gatewayType
  GatewayWebsocketUrl := "wss://gateway.example/ws"
  GatewayAdminUrl := "https://gateway.example/admin"
  GatewayAdminSecret := "adminsecret"
  StunURI := "stun:stun.example:3478"
  TurnURI := turnURI
  TurnUsername := "alice"
  TurnSharedKey := "topsecret"

/-- Surroundings in which the gateway gives the same answer to every
request, and the body of a response is the decoded field itself. -/
def sampleEnv (cfg : WebrtcSettings) (answer : DoResult) : Env where
  Cfg := cfg
  Now := ⟨1699900000, 0, UTC⟩
  NewId := "tx0001"
  Do := fun _ => answer
  MapToJson := fun m => String.join (m.entries.map (fun p => p.1 ++ "=" ++ p.2 ++ ";"))
  AppErrorFromJson := fun body => ⟨"gateway", body, "", 502⟩
  JanusGatewayResponseFromJson := fun body => ⟨body⟩
  KopanoWebmeetingsResponseFromJson := fun body => ⟨body⟩
  unicodeToLower := fun c => c

/-- The zone of New York from 2017 to 2018: UTC-4 until 5 November 2017
06:00 UTC, then UTC-5 until 11 March 2018 07:00 UTC, then UTC-4. -/
def newYork : Location :=
  Location.ofTransitions (-14400) [(1509861600, -18000), (1520751600, -14400)]

/-- A Janus gateway that accepts the token, with a TURN server configured. -/
def envJanusTurn : Env :=
  sampleEnv (sampleCfg true "Janus" "turn:turn.example:3478") (.ok ⟨200, "success"⟩)

/-- A Janus gateway that accepts the token, without a TURN server. -/
def envJanusNoTurn : Env :=
  sampleEnv (sampleCfg true "JANUS" "") (.ok ⟨200, "success"⟩)

/-- A Kopano Webmeetings gateway that mints the token `abc123`. -/
def envKopano : Env :=
  sampleEnv (sampleCfg true "Kopano-WebMeetings" "") (.ok ⟨200, "abc123"⟩)

/-- The feature switched off, everything else configured. -/
def envDisabled : Env :=
  sampleEnv (sampleCfg false "kopano-webmeetings" "turn:turn.example:3478") (.ok ⟨200, "abc123"⟩)

/-- The surroundings `envJanusTurn` with the clock at `now`. -/
def envAt (now : Time) : Env :=
  { envJanusTurn with Now := now }

/-! ## Bytes, base64 and SHA-1: auxiliary facts -/

theorem encodeStd_table : ∀ i, i < 64 →
    decodeStd (encodeStd i) = some i ∧ encodeStd i ≠ '=' ∧ encodeStd i ≠ '\r' ∧
      encodeStd i ≠ '\n' := by
  decide

theorem char_toNat_lt (c : Char) : c.toNat < 0x110000 := by
  have h := c.valid
  simp only [UInt32.isValidChar, Nat.isValidChar] at h
  show c.val.toNat < 0x110000
  omega

theorem utf8EncodeChar_lt (c : Char) : ∀ b ∈ utf8EncodeChar c, b < 256 := by
  have h := char_toNat_lt c
  unfold utf8EncodeChar
  intro b hb
  simp only at hb
  split_ifs at hb <;> simp at hb <;> omega

theorem utf8EncodeChar_ne_nil (c : Char) : utf8EncodeChar c ≠ [] := by
  unfold utf8EncodeChar
  simp only
  split_ifs <;> simp

theorem utf8EncodeChar_append_inj (c d : Char) (x y : List Nat)
    (h : utf8EncodeChar c ++ x = utf8EncodeChar d ++ y) : c = d ∧ x = y := by
  have hc := char_toNat_lt c
  have hd := char_toNat_lt d
  have key : c.toNat = d.toNat ∧ x = y := by
    unfold utf8EncodeChar at h
    simp only at h
    split_ifs at h <;> simp at h <;> first | (exfalso; omega) | exact ⟨by omega, by tauto⟩
  refine ⟨?_, key.2⟩
  apply Char.ext
  apply UInt32.ext
  exact key.1

theorem bytes_lt (s : String) : ∀ b ∈ bytes s, b < 256 := by
  intro b hb
  simp only [bytes, List.mem_flatMap] at hb
  obtain ⟨c, _, hc⟩ := hb
  exact utf8EncodeChar_lt c b hc

theorem flatMap_utf8_inj : ∀ cs ds : List Char,
    cs.flatMap utf8EncodeChar = ds.flatMap utf8EncodeChar → cs = ds
  | [], [], _ => rfl
  | [], d :: ds, h => by
      simp only [List.flatMap_nil, List.flatMap_cons] at h
      have := utf8EncodeChar_ne_nil d
      cases hd : utf8EncodeChar d with
      | nil => exact absurd hd this
      | cons a l => rw [hd] at h; simp at h
  | c :: cs, [], h => by
      simp only [List.flatMap_nil, List.flatMap_cons] at h
      have := utf8EncodeChar_ne_nil c
      cases hc : utf8EncodeChar c with
      | nil => exact absurd hc this
      | cons a l => rw [hc] at h; simp at h
  | c :: cs, d :: ds, h => by
      simp only [List.flatMap_cons] at h
      obtain ⟨h1, h2⟩ := utf8EncodeChar_append_inj c d _ _ h
      rw [h1, flatMap_utf8_inj cs ds h2]

theorem bytes_injective (s t : String) (h : bytes s = bytes t) : s = t := by
  cases s with
  | mk cs =>
    cases t with
    | mk ds =>
      simp only [bytes] at h
      rw [flatMap_utf8_inj cs ds h]

theorem len_pos_iff (s : String) : len s > 0 ↔ s ≠ "" := by
  cases s with
  | mk cs =>
    cases cs with
    | nil => simp [len, bytes]
    | cons c cs =>
      have := utf8EncodeChar_ne_nil c
      have h2 : (String.mk (c :: cs)) ≠ "" := by
        intro h
        have := congrArg String.data h
        simp at this
      simp only [len, bytes, List.flatMap_cons, List.length_append, gt_iff_lt, ne_eq, h2,
        not_false_eq_true, iff_true]
      have : 0 < (utf8EncodeChar c).length := List.length_pos.mpr this
      omega

theorem decodeChars_encodeChars : ∀ bs : List Nat, (∀ b ∈ bs, b < 256) →
    decodeChars (encodeChars bs) = some bs
  | [], _ => rfl
  | [b0], h => by
      have h0 : b0 < 256 := h b0 (by simp)
      have t0 := encodeStd_table (b0 / 4) (by omega)
      have t1 := encodeStd_table (b0 % 4 * 16) (by omega)
      simp only [encodeChars, decodeChars, t0.1, t1.1, StdPadding, and_self, if_true]
      simp
      omega
  | [b0, b1], h => by
      have h0 : b0 < 256 := h b0 (by simp)
      have h1 : b1 < 256 := h b1 (by simp)
      have t0 := encodeStd_table (b0 / 4) (by omega)
      have t1 := encodeStd_table (b0 % 4 * 16 + b1 / 16) (by omega)
      have t2 := encodeStd_table (b1 % 16 * 4) (by omega)
      simp only [encodeChars, decodeChars, t0.1, t1.1, t2.1, t2.2.1, StdPadding, if_true,
        if_false]
      simp
      omega
  | b0 :: b1 :: b2 :: rest, h => by
      have h0 : b0 < 256 := h b0 (by simp)
      have h1 : b1 < 256 := h b1 (by simp)
      have h2 : b2 < 256 := h b2 (by simp)
      have hr : ∀ b ∈ rest, b < 256 := fun b hb => h b (by simp [hb])
      have t0 := encodeStd_table (b0 / 4) (by omega)
      have t1 := encodeStd_table (b0 % 4 * 16 + b1 / 16) (by omega)
      have t2 := encodeStd_table (b1 % 16 * 4 + b2 / 64) (by omega)
      have t3 := encodeStd_table (b2 % 64) (by omega)
      have ih := decodeChars_encodeChars rest hr
      simp only [encodeChars, decodeChars, t0.1, t1.1, t2.1, t3.1, t2.2.1, t3.2.1, ih,
        StdPadding, if_false]
      simp
      omega

theorem encodeChars_filter : ∀ bs : List Nat, (∀ b ∈ bs, b < 256) →
    (encodeChars bs).filter (fun c => c != '\r' && c != '\n') = encodeChars bs
  | [], _ => rfl
  | [b0], h => by
      have h0 : b0 < 256 := h b0 (by simp)
      have t0 := encodeStd_table (b0 / 4) (by omega)
      have t1 := encodeStd_table (b0 % 4 * 16) (by omega)
      simp [encodeChars, StdPadding, t0.2.2, t1.2.2]
  | [b0, b1], h => by
      have h0 : b0 < 256 := h b0 (by simp)
      have h1 : b1 < 256 := h b1 (by simp)
      have t0 := encodeStd_table (b0 / 4) (by omega)
      have t1 := encodeStd_table (b0 % 4 * 16 + b1 / 16) (by omega)
      have t2 := encodeStd_table (b1 % 16 * 4) (by omega)
      simp [encodeChars, StdPadding, t0.2.2, t1.2.2, t2.2.2]
  | b0 :: b1 :: b2 :: rest, h => by
      have h0 : b0 < 256 := h b0 (by simp)
      have h1 : b1 < 256 := h b1 (by simp)
      have h2 : b2 < 256 := h b2 (by simp)
      have hr : ∀ b ∈ rest, b < 256 := fun b hb => h b (by simp [hb])
      have t0 := encodeStd_table (b0 / 4) (by omega)
      have t1 := encodeStd_table (b0 % 4 * 16 + b1 / 16) (by omega)
      have t2 := encodeStd_table (b1 % 16 * 4 + b2 / 64) (by omega)
      have t3 := encodeStd_table (b2 % 64) (by omega)
      have ih := encodeChars_filter rest hr
      simp [encodeChars, t0.2.2, t1.2.2, t2.2.2, t3.2.2, ih]

theorem DecodeString_EncodeToString (bs : List Nat) (h : ∀ b ∈ bs, b < 256) :
    DecodeString (EncodeToString bs) = some bs := by
  simp only [DecodeString, EncodeToString, encodeChars_filter bs h, decodeChars_encodeChars bs h]

theorem EncodeToString_bytes_injective (s t : String)
    (h : EncodeToString (bytes s) = EncodeToString (bytes t)) : s = t := by
  have hs := DecodeString_EncodeToString (bytes s) (bytes_lt s)
  have ht := DecodeString_EncodeToString (bytes t) (bytes_lt t)
  rw [h, ht] at hs
  exact (bytes_injective t s (Option.some.inj hs)).symm

theorem sha1Sum_length (m : List Nat) : (sha1Sum m).length = 20 := by
  simp [sha1Sum, be32]

theorem sha1Sum_lt (m : List Nat) : ∀ b ∈ sha1Sum m, b < 256 := by
  intro b hb
  simp only [sha1Sum, be32, List.mem_append, List.mem_cons, List.mem_singleton,
    List.not_mem_nil, or_false] at hb
  omega

theorem encodeChars_digest (l : List Nat) (hl : l.length = 20) (hb : ∀ b ∈ l, b < 256) :
    (encodeChars l).length = 28 ∧ (encodeChars l).getLast? = some '=' ∧
      ∀ c ∈ (encodeChars l).dropLast, (decodeStd c).isSome = true := by
  match l, hl, hb with
  | [a0, a1, a2, a3, a4, a5, a6, a7, a8, a9, a10, a11, a12, a13, a14, a15, a16, a17, a18, a19], _, hb =>
    simp only [List.forall_mem_cons, List.not_mem_nil, false_implies, implies_true,
      and_true] at hb
    have key : ∀ i, i < 64 → (decodeStd (encodeStd i)).isSome = true := by
      intro i hi
      rw [(encodeStd_table i hi).1]
      rfl
    simp only [encodeChars, StdPadding, List.length_cons, List.length_nil, List.dropLast,
      List.forall_mem_cons, List.not_mem_nil, false_implies, implies_true, and_true, true_and]
    refine ⟨by simp, ?_⟩
    refine ⟨?_, ?_, ?_, ?_, ?_, ?_, ?_, ?_, ?_, ?_, ?_, ?_, ?_, ?_, ?_, ?_, ?_, ?_, ?_, ?_, ?_,
      ?_, ?_, ?_, ?_, ?_, ?_⟩ <;> apply key <;> omega

/-! ## Time and numerals: auxiliary facts -/

theorem digitChar_table : ∀ i, i < 10 →
    (Nat.digitChar i).toNat - 48 = i ∧ 48 ≤ (Nat.digitChar i).toNat ∧
      (Nat.digitChar i).toNat ≤ 57 ∧ (i ≠ 0 → Nat.digitChar i ≠ '0') ∧
      (i = 0 → Nat.digitChar i = '0') := by
  decide

theorem digitsValue_append (pre : List Char) (c : Char) :
    digitsValue (pre ++ [c]) = 10 * digitsValue pre + (c.toNat - 48) := by
  simp [digitsValue, List.foldl_append]

theorem toDigitsCore_spec : ∀ fuel n ds, n < fuel →
    ∃ pre, Nat.toDigitsCore 10 fuel n ds = pre ++ ds ∧ pre ≠ [] ∧
      (∀ c ∈ pre, 48 ≤ c.toNat ∧ c.toNat ≤ 57) ∧ digitsValue pre = n ∧
      (0 < n → pre.head? ≠ some '0') ∧ (n = 0 → pre = ['0'])
  | 0, n, ds, h => by omega
  | fuel + 1, n, ds, h => by
      have t := digitChar_table (n % 10) (Nat.mod_lt _ (by decide))
      unfold Nat.toDigitsCore
      simp only
      by_cases h0 : n / 10 = 0
      · simp only [h0, if_true]
        have hn : n % 10 = n := by omega
        refine ⟨[Nat.digitChar (n % 10)], rfl, by simp, ?_, ?_, ?_, ?_⟩
        · intro c hc
          simp only [List.mem_singleton] at hc
          rw [hc]
          exact ⟨t.2.1, t.2.2.1⟩
        · have t1 := t.1
          simp only [digitsValue, List.foldl_cons, List.foldl_nil, t1]
          omega
        · intro hpos
          simp only [List.head?_cons, ne_eq, Option.some.injEq]
          exact t.2.2.2.1 (by omega)
        · intro hz
          rw [t.2.2.2.2 (by omega)]
      · simp only [h0, if_false]
        obtain ⟨pre, hp, hne, hd, hv, hh, _⟩ :=
          toDigitsCore_spec fuel (n / 10) (Nat.digitChar (n % 10) :: ds) (by omega)
        refine ⟨pre ++ [Nat.digitChar (n % 10)], by simp [hp], by simp, ?_, ?_, ?_, ?_⟩
        · intro c hc
          simp only [List.mem_append, List.mem_singleton] at hc
          rcases hc with hc | hc
          · exact hd c hc
          · rw [hc]
            exact ⟨t.2.1, t.2.2.1⟩
        · rw [digitsValue_append, hv, t.1]
          omega
        · intro _
          cases pre with
          | nil => exact absurd rfl hne
          | cons a l => simpa using hh (by omega)
        · intro hz
          omega

theorem isDecimalNat_toDigits (n : Nat) : isDecimalNat (Nat.toDigits 10 n) n = true := by
  obtain ⟨pre, hp, hne, hd, hv, hh, hz⟩ := toDigitsCore_spec (n + 1) n [] (by omega)
  simp only [List.append_nil] at hp
  unfold Nat.toDigits
  rw [hp]
  simp only [isDecimalNat, Bool.and_eq_true, Bool.not_eq_true', List.all_eq_true,
    decide_eq_true_eq, Bool.or_eq_true, bne_iff_ne, ne_eq, beq_iff_eq]
  refine ⟨⟨⟨?_, hd⟩, ?_⟩, hv⟩
  · cases pre with
    | nil => exact absurd rfl hne
    | cons a l => rfl
  · by_cases h0 : n = 0
    · exact Or.inr (hz h0)
    · exact Or.inl (hh (by omega))

theorem isDecimalOf_FormatInt (i : Int) : isDecimalOf (FormatInt i 10) i = true := by
  unfold isDecimalOf FormatInt
  by_cases h : i < 0
  · simp only [h, if_true]
    exact isDecimalNat_toDigits _
  · simp only [h, if_false]
    exact isDecimalNat_toDigits _

/-! ## Auxiliary facts about the functions of the file -/

theorem toLowerRune_ascii (u : Char → Char) (c : Char) (h : c.toNat < 0x80) :
    toLowerRune u c = toLowerRune (fun d => d) c := by
  simp [toLowerRune, h]

theorem map_toLowerRune_of_variant (u : Char → Char) : ∀ cs ts : List Char,
    (∀ t ∈ ts, ∀ c, (c == t || c == t.toUpper || c == t.toLower) = true →
      c.toNat < 0x80 ∧ toLowerRune (fun d => d) c = t) →
    cs.length = ts.length →
    (cs.zip ts).all (fun p => p.1 == p.2 || p.1 == p.2.toUpper || p.1 == p.2.toLower) = true →
    cs.map (toLowerRune u) = ts
  | [], [], _, _, _ => rfl
  | [], _ :: _, _, hl, _ => by simp at hl
  | _ :: _, [], _, hl, _ => by simp at hl
  | c :: cs, t :: ts, ht, hl, hv => by
      simp only [List.zip_cons_cons, List.all_cons, Bool.and_eq_true] at hv
      have h1 := ht t (by simp) c hv.1
      have ih := map_toLowerRune_of_variant u cs ts
        (fun t' ht' => ht t' (by simp [ht'])) (by simpa using hl) hv.2
      rw [List.map_cons, ih, toLowerRune_ascii u c h1.1, h1.2]

theorem kopano_letters : ∀ t ∈ "kopano-webmeetings".data, ∀ c ∈ [t, t.toUpper, t.toLower],
    c.toNat < 0x80 ∧ toLowerRune (fun d => d) c = t := by
  decide

theorem ToLower_of_isCaseVariant (u : Char → Char) (g : String)
    (h : isCaseVariant g "kopano-webmeetings" = true) :
    ToLower u g = "kopano-webmeetings" := by
  simp only [isCaseVariant, Bool.and_eq_true, beq_iff_eq] at h
  have key := map_toLowerRune_of_variant u g.data "kopano-webmeetings".data
    (fun t ht c hc => by
      refine kopano_letters t ht c ?_
      simp only [Bool.or_eq_true, beq_iff_eq] at hc
      simp only [List.mem_cons, List.mem_singleton, List.not_mem_nil, or_false]
      tauto)
    h.1 h.2
  simp only [ToLower, key]

theorem janus_sent (env : Env) (sessionId : String) :
    (GetJanusWebrtcToken env sessionId).2 =
      [⟨"POST", env.Cfg.GatewayAdminUrl,
        env.MapToJson ⟨[("janus", "add_token"), ("token", EncodeToString (bytes sessionId)),
          ("transaction", env.NewId), ("admin_secret", env.Cfg.GatewayAdminSecret)]⟩,
        [("Content-Type", "application/json")]⟩] := by
  simp only [GetJanusWebrtcToken]
  split
  · rfl
  · split_ifs <;> rfl

theorem kopano_sent (env : Env) (sessionId : String) :
    (GetKopanoWebmeetingsWebrtcToken env sessionId).2 =
      [⟨"POST", env.Cfg.GatewayAdminUrl ++ "/auth/tokens",
        env.MapToJson ⟨[("type", "Token"), ("id", sessionId)]⟩,
        [("Content-Type", "application/json"),
          ("Authorization", "Bearer " ++ env.Cfg.GatewayAdminSecret)]⟩] := by
  simp only [GetKopanoWebmeetingsWebrtcToken]
  split
  · rfl
  · split_ifs <;> rfl

theorem janus_ne_kopano (env : Env) (sessionId : String) :
    GetJanusWebrtcToken env sessionId ≠ GetKopanoWebmeetingsWebrtcToken env sessionId := by
  intro h
  have h2 := congrArg (fun r => r.2.map (fun rq => rq.Header.length)) h
  simp only [janus_sent, kopano_sent] at h2
  simp at h2

theorem info_of_token (env : Env) (sessionId token : String) (sent : List Request)
    (h : GetWebrtcToken env sessionId = ((token, none), sent)) :
    ∃ resp, GetWebrtcInfoForSession env sessionId = ((some resp, none), sent) ∧
      resp.Token = token ∧ resp.GatewayUrl = env.Cfg.GatewayWebsocketUrl ∧
      resp.GatewayType = env.Cfg.GatewayType ∧
      (env.Cfg.TurnURI = "" →
        resp.TurnUri = "" ∧ resp.TurnUsername = "" ∧ resp.TurnPassword = "") ∧
      (env.Cfg.TurnURI ≠ "" →
        resp.TurnUri = env.Cfg.TurnURI ∧
        resp.TurnUsername =
          FormatInt (EndOfDay (env.Now.AddDate 1)).Unix 10 ++ ":" ++ env.Cfg.TurnUsername ∧
        resp.TurnPassword = GenerateTurnPassword resp.TurnUsername env.Cfg.TurnSharedKey) := by
  simp only [GetWebrtcInfoForSession, h]
  refine ⟨_, rfl, ?_⟩
  by_cases ht : env.Cfg.TurnURI = ""
  · have hl : ¬ len env.Cfg.TurnURI > 0 := by
      rw [len_pos_iff]; simp [ht]
    by_cases hs : len env.Cfg.StunURI > 0 <;> simp only [hs, hl, if_true, if_false] <;>
      simp [ht]
  · have hl : len env.Cfg.TurnURI > 0 := (len_pos_iff _).mpr ht
    by_cases hs : len env.Cfg.StunURI > 0 <;> simp only [hs, hl, if_true, if_false] <;>
      simp [ht]

theorem ToLower_ascii (u : Char → Char) (s : String) (h : ∀ c ∈ s.data, c.toNat < 0x80) :
    ToLower u s = ToLower (fun d => d) s := by
  unfold ToLower
  exact congrArg String.mk (List.map_congr_left (fun c hc => toLowerRune_ascii u c (h c hc)))

/-- The request of `GetJanusWebrtcToken`, written out. -/
theorem janus_unfold (env : Env) (sessionId : String) :
    GetJanusWebrtcToken env sessionId =
      match env.Do ⟨"POST", env.Cfg.GatewayAdminUrl,
        env.MapToJson ⟨[("janus", "add_token"), ("token", EncodeToString (bytes sessionId)),
          ("transaction", env.NewId), ("admin_secret", env.Cfg.GatewayAdminSecret)]⟩,
        [("Content-Type", "application/json")]⟩ with
      | .err e =>
          (("", some ⟨"WebRTC.Token", "model.client.connecting.app_error", e, 500⟩),
            (GetJanusWebrtcToken env sessionId).2)
      | .ok rp =>
          if rp.StatusCode ≥ 300 then
            (("", some (env.AppErrorFromJson rp.Body)), (GetJanusWebrtcToken env sessionId).2)
          else if (env.JanusGatewayResponseFromJson rp.Body).Status ≠ "success" then
            (("", some ⟨"getWebrtcToken", "api.webrtc.register_token.app_error", "", 500⟩),
              (GetJanusWebrtcToken env sessionId).2)
          else
            ((EncodeToString (bytes sessionId), none), (GetJanusWebrtcToken env sessionId).2) := by
  rw [janus_sent]
  rfl

/-- The request of `GetKopanoWebmeetingsWebrtcToken`, written out. -/
theorem kopano_unfold (env : Env) (sessionId : String) :
    GetKopanoWebmeetingsWebrtcToken env sessionId =
      match env.Do ⟨"POST", env.Cfg.GatewayAdminUrl ++ "/auth/tokens",
        env.MapToJson ⟨[("type", "Token"), ("id", sessionId)]⟩,
        [("Content-Type", "application/json"),
          ("Authorization", "Bearer " ++ env.Cfg.GatewayAdminSecret)]⟩ with
      | .err e =>
          (("", some ⟨"WebRTC.Token", "model.client.connecting.app_error", e, 500⟩),
            (GetKopanoWebmeetingsWebrtcToken env sessionId).2)
      | .ok rp =>
          if rp.StatusCode ≥ 300 then
            (("", some (env.AppErrorFromJson rp.Body)),
              (GetKopanoWebmeetingsWebrtcToken env sessionId).2)
          else if (env.KopanoWebmeetingsResponseFromJson rp.Body).Value = "" then
            (("", some ⟨"getWebrtcToken", "api.webrtc.register_token.app_error", "", 500⟩),
              (GetKopanoWebmeetingsWebrtcToken env sessionId).2)
          else
            (((env.KopanoWebmeetingsResponseFromJson rp.Body).Value, none),
              (GetKopanoWebmeetingsWebrtcToken env sessionId).2) := by
  rw [kopano_sent]
  rfl

theorem janus_token_of_ok (env : Env) (sessionId : String)
    (hok : (GetJanusWebrtcToken env sessionId).1.2 = none) :
    (GetJanusWebrtcToken env sessionId).1.1 = EncodeToString (bytes sessionId) := by
  rw [janus_unfold] at hok ⊢
  cases hd : env.Do _ with
  | err e => rw [hd] at hok; simp at hok
  | ok rp =>
    rw [hd] at hok
    simp only at hok ⊢
    split_ifs at hok ⊢
    simp at hok ⊢

/-! ## The claims -/

/-- C1: `GetJanusWebrtcToken` sends exactly one request, the `add_token`
call, and classifies its outcome: a transport failure gives the error
`model.client.connecting.app_error` with status 500; an HTTP status of 300
or more gives the error parsed from the body; a status below 300 with a
parsed `status` other than `success` gives `api.webrtc.register_token.app_error`
with status 500; otherwise the call succeeds with the base64 encoding of the
session id, whatever else the body holds. The token is empty on every
failure. -/
theorem GetJanusWebrtcToken_classification (env : Env) (sessionId : String) :
    ∃ rq : Request,
      rq = ⟨"POST", env.Cfg.GatewayAdminUrl,
        env.MapToJson ⟨[("janus", "add_token"), ("token", EncodeToString (bytes sessionId)),
          ("transaction", env.NewId), ("admin_secret", env.Cfg.GatewayAdminSecret)]⟩,
        [("Content-Type", "application/json")]⟩ ∧
      (GetJanusWebrtcToken env sessionId).2 = [rq] ∧
      (∀ e, env.Do rq = .err e →
        (GetJanusWebrtcToken env sessionId).1 =
          ("", some ⟨"WebRTC.Token", "model.client.connecting.app_error", e, 500⟩)) ∧
      (∀ rp, env.Do rq = .ok rp → rp.StatusCode ≥ 300 →
        (GetJanusWebrtcToken env sessionId).1 = ("", some (env.AppErrorFromJson rp.Body))) ∧
      (∀ rp, env.Do rq = .ok rp → rp.StatusCode < 300 →
        (env.JanusGatewayResponseFromJson rp.Body).Status ≠ "success" →
        (GetJanusWebrtcToken env sessionId).1 =
          ("", some ⟨"getWebrtcToken", "api.webrtc.register_token.app_error", "", 500⟩)) ∧
      (∀ rp, env.Do rq = .ok rp → rp.StatusCode < 300 →
        (env.JanusGatewayResponseFromJson rp.Body).Status = "success" →
        (GetJanusWebrtcToken env sessionId).1 = (EncodeToString (bytes sessionId), none)) := by
  refine ⟨_, rfl, janus_sent env sessionId, ?_, ?_, ?_, ?_⟩
  · intro e he
    rw [janus_unfold, he]
  · intro rp he hs
    rw [janus_unfold, he]
    simp only [hs, if_true]
  · intro rp he hs hst
    rw [janus_unfold, he]
    simp only [ge_iff_le, not_le.mpr hs, hst, ne_eq, not_false_eq_true, if_true, if_false]
  · intro rp he hs hst
    rw [janus_unfold, he]
    simp only [ge_iff_le, not_le.mpr hs, hst, ne_eq, not_true_eq_false, if_false]

/-- C2: `GetKopanoWebmeetingsWebrtcToken` sends exactly one request and
succeeds if and only if the call gives a response with a status below 300
and a non-empty parsed `value`; the token is then that `value`. A status
below 300 with an empty `value` gives `api.webrtc.register_token.app_error`
with status 500, and a transport failure and a status of 300 or more are
classified as in the Janus variant. -/
theorem GetKopanoWebmeetingsWebrtcToken_classification (env : Env) (sessionId : String) :
    ∃ rq : Request,
      rq = ⟨"POST", env.Cfg.GatewayAdminUrl ++ "/auth/tokens",
        env.MapToJson ⟨[("type", "Token"), ("id", sessionId)]⟩,
        [("Content-Type", "application/json"),
          ("Authorization", "Bearer " ++ env.Cfg.GatewayAdminSecret)]⟩ ∧
      (GetKopanoWebmeetingsWebrtcToken env sessionId).2 = [rq] ∧
      ((GetKopanoWebmeetingsWebrtcToken env sessionId).1.2 = none ↔
        ∃ rp, env.Do rq = .ok rp ∧ rp.StatusCode < 300 ∧
          (env.KopanoWebmeetingsResponseFromJson rp.Body).Value ≠ "") ∧
      (∀ rp, env.Do rq = .ok rp → rp.StatusCode < 300 →
        (env.KopanoWebmeetingsResponseFromJson rp.Body).Value ≠ "" →
        (GetKopanoWebmeetingsWebrtcToken env sessionId).1 =
          ((env.KopanoWebmeetingsResponseFromJson rp.Body).Value, none)) ∧
      (∀ rp, env.Do rq = .ok rp → rp.StatusCode < 300 →
        (env.KopanoWebmeetingsResponseFromJson rp.Body).Value = "" →
        (GetKopanoWebmeetingsWebrtcToken env sessionId).1 =
          ("", some ⟨"getWebrtcToken", "api.webrtc.register_token.app_error", "", 500⟩)) ∧
      (∀ e, env.Do rq = .err e →
        (GetKopanoWebmeetingsWebrtcToken env sessionId).1 =
          ("", some ⟨"WebRTC.Token", "model.client.connecting.app_error", e, 500⟩)) ∧
      (∀ rp, env.Do rq = .ok rp → rp.StatusCode ≥ 300 →
        (GetKopanoWebmeetingsWebrtcToken env sessionId).1 =
          ("", some (env.AppErrorFromJson rp.Body))) := by
  refine ⟨_, rfl, kopano_sent env sessionId, ?_, ?_, ?_, ?_, ?_⟩
  · rw [kopano_unfold]
    cases hd : env.Do _ with
    | err e => simp
    | ok rp =>
      by_cases hs : rp.StatusCode ≥ 300
      · have : ¬ rp.StatusCode < 300 := not_lt.mpr hs
        simp [hs, this]
      · have : rp.StatusCode < 300 := not_le.mp hs
        by_cases hv : (env.KopanoWebmeetingsResponseFromJson rp.Body).Value = "" <;>
          simp [hs, this, hv]
  · intro rp he hs hv
    rw [kopano_unfold, he]
    simp only [ge_iff_le, not_le.mpr hs, hv, if_false]
  · intro rp he hs hv
    rw [kopano_unfold, he]
    simp only [ge_iff_le, not_le.mpr hs, hv, if_true, if_false]
  · intro e he
    rw [kopano_unfold, he]
  · intro rp he hs
    rw [kopano_unfold, he]
    simp only [hs, if_true]

/-- C3: with the feature enabled, `GetWebrtcToken` is the Kopano variant
exactly when the lower-cased `GatewayType` is `kopano-webmeetings`, and the
Janus variant exactly when it is not; so `Janus`, `JANUS`, the empty string
and `unknown-type` give the Janus variant, and every case variant of
`kopano-webmeetings` gives the Kopano variant. -/
theorem GetWebrtcToken_routing (env : Env) (sessionId : String)
    (hen : env.Cfg.Enable = true) :
    (GetWebrtcToken env sessionId = GetKopanoWebmeetingsWebrtcToken env sessionId ↔
      ToLower env.unicodeToLower env.Cfg.GatewayType = "kopano-webmeetings") ∧
    (GetWebrtcToken env sessionId = GetJanusWebrtcToken env sessionId ↔
      ToLower env.unicodeToLower env.Cfg.GatewayType ≠ "kopano-webmeetings") ∧
    (env.Cfg.GatewayType ∈ ["Janus", "JANUS", "", "unknown-type"] →
      GetWebrtcToken env sessionId = GetJanusWebrtcToken env sessionId) ∧
    (isCaseVariant env.Cfg.GatewayType "kopano-webmeetings" = true →
      GetWebrtcToken env sessionId = GetKopanoWebmeetingsWebrtcToken env sessionId) := by
  have hk : ToLower env.unicodeToLower env.Cfg.GatewayType = "kopano-webmeetings" →
      GetWebrtcToken env sessionId = GetKopanoWebmeetingsWebrtcToken env sessionId := by
    intro h
    simp [GetWebrtcToken, hen, h]
  have hj : ToLower env.unicodeToLower env.Cfg.GatewayType ≠ "kopano-webmeetings" →
      GetWebrtcToken env sessionId = GetJanusWebrtcToken env sessionId := by
    intro h
    simp [GetWebrtcToken, hen, h]
  refine ⟨⟨?_, hk⟩, ⟨?_, hj⟩, ?_, ?_⟩
  · intro h
    by_contra hne
    rw [hj hne] at h
    exact janus_ne_kopano env sessionId h
  · intro h heq
    rw [hk heq] at h
    exact janus_ne_kopano env sessionId h.symm
  · intro hmem
    apply hj
    simp only [List.mem_cons, List.mem_singleton, List.not_mem_nil, or_false] at hmem
    rcases hmem with h | h | h | h <;> rw [h, ToLower_ascii _ _ (by decide)] <;> decide
  · intro hv
    exact hk (ToLower_of_isCaseVariant _ _ hv)

/-- C3, at a Kopano configuration spelled `Kopano-WebMeetings`. -/
theorem GetWebrtcToken_routing_witness :
    envKopano.Cfg.Enable = true ∧
    isCaseVariant envKopano.Cfg.GatewayType "kopano-webmeetings" = true ∧
    GetWebrtcToken envKopano "session1" =
      GetKopanoWebmeetingsWebrtcToken envKopano "session1" ∧
    GetWebrtcToken envKopano "session1" ≠ GetJanusWebrtcToken envKopano "session1" :=
  ⟨rfl, by decide,
    (GetWebrtcToken_routing envKopano "session1" rfl).2.2.2 (by decide),
    fun h => ((GetWebrtcToken_routing envKopano "session1" rfl).2.1.mp h)
      (ToLower_of_isCaseVariant _ _ (by decide))⟩

set_option maxRecDepth 100000 in
/-- C4: `GenerateTurnPassword` is total and is the standard padded base64
encoding of the HMAC-SHA1 of the bytes of the user name under the bytes of the
secret: the digest `H((K xor opad) ++ H((K xor ipad) ++ user name))`, where
`K` is the secret, replaced by its SHA-1 digest when longer than 64 bytes
and filled up with zero bytes to 64 bytes, and `H` is SHA-1, which gives the
digests of FIPS 180 for the empty message, `abc` and the two-block message,
and the HMAC gives the digests of RFC 2202, test cases 1, 2, 3 and 6. Equal
inputs give equal outputs, the digest has 20 bytes, and the result has 28
characters: 27 characters of the base64 alphabet followed by one padding
character `=`; it decodes to the digest. The passwords of five sample
inputs, the empty ones among them, are the expected ones. -/
theorem GenerateTurnPassword_wellFormed (username secret : String) :
    (∀ k0 K : List Nat,
      k0 = (if (bytes secret).length > 64 then sha1Sum (bytes secret) else bytes secret) →
      K = k0 ++ List.replicate (64 - k0.length) 0 →
      GenerateTurnPassword username secret =
        EncodeToString (sha1Sum (K.map (fun b => b ^^^ 0x5c) ++
          sha1Sum (K.map (fun b => b ^^^ 0x36) ++ bytes username)))) ∧
    GenerateTurnPassword username secret =
      EncodeToString (hmacSha1 (bytes secret) (bytes username)) ∧
    (∀ username2 secret2, username2 = username → secret2 = secret →
      GenerateTurnPassword username2 secret2 = GenerateTurnPassword username secret) ∧
    (hmacSha1 (bytes secret) (bytes username)).length = 20 ∧
    (GenerateTurnPassword username secret).length = 28 ∧
    (GenerateTurnPassword username secret).data.getLast? = some '=' ∧
    (∀ c ∈ (GenerateTurnPassword username secret).data.dropLast,
      (decodeStd c).isSome = true) ∧
    DecodeString (GenerateTurnPassword username secret) =
      some (hmacSha1 (bytes secret) (bytes username)) ∧
    sha1Sum [] =
      [0xda, 0x39, 0xa3, 0xee, 0x5e, 0x6b, 0x4b, 0x0d, 0x32, 0x55,
        0xbf, 0xef, 0x95, 0x60, 0x18, 0x90, 0xaf, 0xd8, 0x07, 0x09] ∧
    sha1Sum (bytes "abc") =
      [0xa9, 0x99, 0x3e, 0x36, 0x47, 0x06, 0x81, 0x6a, 0xba, 0x3e,
        0x25, 0x71, 0x78, 0x50, 0xc2, 0x6c, 0x9c, 0xd0, 0xd8, 0x9d] ∧
    sha1Sum (bytes "abcdbcdecdefdefgefghfghighijhijkijkljklmklmnlmnomnopnopq") =
      [0x84, 0x98, 0x3e, 0x44, 0x1c, 0x3b, 0xd2, 0x6e, 0xba, 0xae,
        0x4a, 0xa1, 0xf9, 0x51, 0x29, 0xe5, 0xe5, 0x46, 0x70, 0xf1] ∧
    hmacSha1 (List.replicate 20 0x0b) (bytes "Hi There") =
      [0xb6, 0x17, 0x31, 0x86, 0x55, 0x05, 0x72, 0x64, 0xe2, 0x8b,
        0xc0, 0xb6, 0xfb, 0x37, 0x8c, 0x8e, 0xf1, 0x46, 0xbe, 0x00] ∧
    hmacSha1 (bytes "Jefe") (bytes "what do ya want for nothing?") =
      [0xef, 0xfc, 0xdf, 0x6a, 0xe5, 0xeb, 0x2f, 0xa2, 0xd2, 0x74,
        0x16, 0xd5, 0xf1, 0x84, 0xdf, 0x9c, 0x25, 0x9a, 0x7c, 0x79] ∧
    hmacSha1 (List.replicate 20 0xaa) (List.replicate 50 0xdd) =
      [0x12, 0x5d, 0x73, 0x42, 0xb9, 0xac, 0x11, 0xcd, 0x91, 0xa3,
        0x9a, 0xf4, 0x8a, 0xa1, 0x7b, 0x4f, 0x63, 0xf1, 0x75, 0xd3] ∧
    hmacSha1 (List.replicate 80 0xaa)
        (bytes "Test Using Larger Than Block-Size Key - Hash Key First") =
      [0xaa, 0x4a, 0xe5, 0xe1, 0x52, 0x72, 0xd0, 0x0e, 0x95, 0x70,
        0x56, 0x37, 0xce, 0x8a, 0x3b, 0x55, 0xed, 0x40, 0x21, 0x12] ∧
    GenerateTurnPassword "1700000000:alice" "topsecret" = "ffEWpTeo0FiPymnDORcgko9gQy8=" ∧
    GenerateTurnPassword "" "" = "+9sdGxiqbAgyS31ktx+3Y3BpDh0=" ∧
    GenerateTurnPassword "1700000000:älice" "tøpsecret" = "RUNf9ewvUaFUMW5995iQaYhOKD0=" ∧
    GenerateTurnPassword "abc" (String.mk (List.replicate 70 'k')) =
      "IgD8fm+o1g5vdLFOw+KoE7Lj//E=" ∧
    GenerateTurnPassword "1509944399:alice" "topsecret" = "4pyYd4iAqW/EbWiiySUM+ilHq3k=" := by
  have hlen : (hmacSha1 (bytes secret) (bytes username)).length = 20 := sha1Sum_length _
  have hlt : ∀ b ∈ hmacSha1 (bytes secret) (bytes username), b < 256 := sha1Sum_lt _
  have h := encodeChars_digest _ hlen hlt
  refine ⟨?_, rfl, ?_, hlen, ?_, h.2.1, h.2.2, DecodeString_EncodeToString _ hlt,
    by decide, by decide, by decide, by decide, by decide, by decide, by decide,
    by decide, by decide, by decide, by decide, by decide⟩
  · intro k0 K hk0 hK
    subst hk0 hK
    rfl
  · intro u2 s2 hu hs
    rw [hu, hs]
  · simp only [GenerateTurnPassword, EncodeToString, String.length]
    exact h.1

/-- C5: when `TurnURI` is not empty and the token is issued, the response has
the configured `TurnURI`, the user name `<timestamp>:<TurnUsername>` where
the part in front of the colon is the decimal numeral of the Unix seconds
of `EndOfDay(now.AddDate(0, 0, 1))`, and the password
`GenerateTurnPassword(response.TurnUsername, TurnSharedKey)`. -/
theorem GetWebrtcInfoForSession_turn (env : Env) (sessionId token : String)
    (sent : List Request) (hturn : env.Cfg.TurnURI ≠ "")
    (htok : GetWebrtcToken env sessionId = ((token, none), sent)) :
    ∃ resp digits, GetWebrtcInfoForSession env sessionId = ((some resp, none), sent) ∧
      resp.TurnUri = env.Cfg.TurnURI ∧
      resp.TurnUsername = digits ++ ":" ++ env.Cfg.TurnUsername ∧
      isDecimalOf digits (EndOfDay (env.Now.AddDate 1)).Unix = true ∧
      resp.TurnPassword = GenerateTurnPassword resp.TurnUsername env.Cfg.TurnSharedKey := by
  obtain ⟨resp, h1, _, _, _, _, h6⟩ := info_of_token env sessionId token sent htok
  exact ⟨resp, _, h1, (h6 hturn).1, (h6 hturn).2.1, isDecimalOf_FormatInt _, (h6 hturn).2.2⟩

set_option maxRecDepth 100000 in
/-- C5, at a call in New York on 4 November 2017, 00:30, the day before the
clocks are set back: the user name is `1509944399:alice`, the end of
5 November at UTC-5, and the password is its HMAC under `topsecret`. -/
theorem GetWebrtcInfoForSession_turn_witness :
    (envAt ⟨1509769800, 0, newYork⟩).Cfg.TurnURI ≠ "" ∧
    (EndOfDay ((envAt ⟨1509769800, 0, newYork⟩).Now.AddDate 1)).Unix = 1509944399 ∧
    (GetWebrtcInfoForSession (envAt ⟨1509769800, 0, newYork⟩) "session1").1.1.map
        (fun r => (r.TurnUri, r.TurnUsername, r.TurnPassword)) =
      some ("turn:turn.example:3478", "1509944399:alice", "4pyYd4iAqW/EbWiiySUM+ilHq3k=") ∧
    ∃ resp digits, GetWebrtcInfoForSession (envAt ⟨1509769800, 0, newYork⟩) "session1" =
        ((some resp, none),
          (GetJanusWebrtcToken (envAt ⟨1509769800, 0, newYork⟩) "session1").2) ∧
      resp.TurnUri = "turn:turn.example:3478" ∧
      resp.TurnUsername = digits ++ ":" ++ "alice" ∧
      isDecimalOf digits
        (EndOfDay ((envAt ⟨1509769800, 0, newYork⟩).Now.AddDate 1)).Unix = true ∧
      resp.TurnPassword = GenerateTurnPassword resp.TurnUsername "topsecret" :=
  ⟨by decide, by decide, by decide,
    GetWebrtcInfoForSession_turn (envAt ⟨1509769800, 0, newYork⟩) "session1" "c2Vzc2lvbjE=" _
      (by decide) (by decide)⟩

/-- C6: with the feature disabled, `GetWebrtcToken` returns the empty token
and the error `api.webrtc.disabled.app_error` with status 501,
`GetWebrtcInfoForSession` returns no response and the same error, and
neither sends a request. -/
theorem disabled_fails_fast (env : Env) (sessionId : String)
    (hdis : env.Cfg.Enable = false) :
    GetWebrtcToken env sessionId =
      (("", some ⟨"WebRTC.getWebrtcToken", "api.webrtc.disabled.app_error", "", 501⟩), []) ∧
    GetWebrtcInfoForSession env sessionId =
      ((none, some ⟨"WebRTC.getWebrtcToken", "api.webrtc.disabled.app_error", "", 501⟩), []) := by
  have h : GetWebrtcToken env sessionId =
      (("", some ⟨"WebRTC.getWebrtcToken", "api.webrtc.disabled.app_error", "", 501⟩), []) := by
    simp [GetWebrtcToken, hdis, NewAppError, StatusNotImplemented]
  refine ⟨h, ?_⟩
  simp only [GetWebrtcInfoForSession, h]

/-- C6, at a disabled configuration with a Kopano gateway and a TURN server. -/
theorem disabled_fails_fast_witness :
    envDisabled.Cfg.Enable = false ∧
    (GetWebrtcToken envDisabled "session1").2 = [] ∧
    (GetWebrtcInfoForSession envDisabled "session1").1.1 = none ∧
    (GetWebrtcInfoForSession envDisabled "session1").2 = [] :=
  ⟨rfl, by rw [(disabled_fails_fast envDisabled "session1" rfl).1],
    by rw [(disabled_fails_fast envDisabled "session1" rfl).2],
    by rw [(disabled_fails_fast envDisabled "session1" rfl).2]⟩

/-- C7: when `TurnURI` is empty and the token is issued, the response has
empty `TurnUri`, `TurnUsername` and `TurnPassword`, whatever the other
settings, and `Token`, `GatewayUrl` and `GatewayType` hold the issued token
and the configured values. -/
theorem GetWebrtcInfoForSession_no_turn (env : Env) (sessionId token : String)
    (sent : List Request) (hturn : env.Cfg.TurnURI = "")
    (htok : GetWebrtcToken env sessionId = ((token, none), sent)) :
    ∃ resp, GetWebrtcInfoForSession env sessionId = ((some resp, none), sent) ∧
      resp.TurnUri = "" ∧ resp.TurnUsername = "" ∧ resp.TurnPassword = "" ∧
      resp.Token = token ∧ resp.GatewayUrl = env.Cfg.GatewayWebsocketUrl ∧
      resp.GatewayType = env.Cfg.GatewayType := by
  obtain ⟨resp, h1, h2, h3, h4, h5, _⟩ := info_of_token env sessionId token sent htok
  exact ⟨resp, h1, (h5 hturn).1, (h5 hturn).2.1, (h5 hturn).2.2, h2, h3, h4⟩

/-- C7, at a Janus gateway that accepts the token, with a TURN user name and
key configured but no TURN address. -/
theorem GetWebrtcInfoForSession_no_turn_witness :
    envJanusNoTurn.Cfg.TurnURI = "" ∧ envJanusNoTurn.Cfg.TurnUsername = "alice" ∧
    ∃ resp, GetWebrtcInfoForSession envJanusNoTurn "session1" =
        ((some resp, none), (GetJanusWebrtcToken envJanusNoTurn "session1").2) ∧
      resp.TurnUri = "" ∧ resp.TurnUsername = "" ∧ resp.TurnPassword = "" ∧
      resp.Token = "c2Vzc2lvbjE=" ∧ resp.GatewayUrl = "wss://gateway.example/ws" ∧
      resp.GatewayType = "JANUS" :=
  ⟨rfl, rfl,
    GetWebrtcInfoForSession_no_turn envJanusNoTurn "session1" "c2Vzc2lvbjE=" _ rfl
      (by decide)⟩

/-- C8: at a configuration whose lower-cased `GatewayType` is
`kopano-webmeetings`, `RevokeWebrtcToken` is not a no-op: it sends one
request, the Janus `remove_token` call, to the admin address. -/
theorem RevokeWebrtcToken_kopano_sends :
    ToLower envKopano.unicodeToLower envKopano.Cfg.GatewayType = "kopano-webmeetings" ∧
    RevokeWebrtcToken envKopano "session1" =
      [⟨"POST", "https://gateway.example/admin",
        "janus=remove_token;token=c2Vzc2lvbjE=;transaction=tx0001;admin_secret=adminsecret;",
        [("Content-Type", "application/json")]⟩] := by
  decide

/-- C10: when `GetJanusWebrtcToken` succeeds, standard base64 decoding of
the token gives the bytes of the session id, no other session id is ever
given the same token, and the `remove_token` request of `RevokeWebrtcToken`
for the session carries that token. -/
theorem janus_token_reversible (env : Env) (sessionId : String)
    (hok : (GetJanusWebrtcToken env sessionId).1.2 = none) :
    DecodeString (GetJanusWebrtcToken env sessionId).1.1 = some (bytes sessionId) ∧
    (∀ (env2 : Env) (sessionId2 : String),
      (GetJanusWebrtcToken env2 sessionId2).1.2 = none → sessionId2 ≠ sessionId →
      (GetJanusWebrtcToken env2 sessionId2).1.1 ≠ (GetJanusWebrtcToken env sessionId).1.1) ∧
    RevokeWebrtcToken env sessionId =
      [⟨"POST", env.Cfg.GatewayAdminUrl,
        env.MapToJson ⟨[("janus", "remove_token"),
          ("token", (GetJanusWebrtcToken env sessionId).1.1),
          ("transaction", env.NewId), ("admin_secret", env.Cfg.GatewayAdminSecret)]⟩,
        [("Content-Type", "application/json")]⟩] := by
  have ht := janus_token_of_ok env sessionId hok
  refine ⟨?_, ?_, ?_⟩
  · rw [ht]
    exact DecodeString_EncodeToString _ (bytes_lt sessionId)
  · intro env2 sessionId2 hok2 hne heq
    rw [ht, janus_token_of_ok env2 sessionId2 hok2] at heq
    exact hne (EncodeToString_bytes_injective _ _ heq)
  · rw [ht]
    rfl

/-- C10, at a Janus gateway that accepts the token of `session1`. -/
theorem janus_token_reversible_witness :
    (GetJanusWebrtcToken envJanusTurn "session1").1 = ("c2Vzc2lvbjE=", none) ∧
    DecodeString (GetJanusWebrtcToken envJanusTurn "session1").1.1 =
      some (bytes "session1") ∧
    (RevokeWebrtcToken envJanusTurn "session1").map (fun rq => rq.Body) =
      ["janus=remove_token;token=c2Vzc2lvbjE=;transaction=tx0001;admin_secret=adminsecret;"] :=
  ⟨by decide, (janus_token_reversible envJanusTurn "session1" (by decide)).1, by decide⟩

/-! ## Sample evaluations -/

/-- The outcomes of the Janus variant at a refused connection, at a status
of 500, at the status `error` and at the status `success`. -/
theorem GetJanusWebrtcToken_samples :
    (GetJanusWebrtcToken (sampleEnv (sampleCfg true "janus" "") (.err "refused")) "session1").1 =
      ("", some ⟨"WebRTC.Token", "model.client.connecting.app_error", "refused", 500⟩) ∧
    (GetJanusWebrtcToken (sampleEnv (sampleCfg true "janus" "") (.ok ⟨500, "down"⟩))
      "session1").1 = ("", some ⟨"gateway", "down", "", 502⟩) ∧
    (GetJanusWebrtcToken (sampleEnv (sampleCfg true "janus" "") (.ok ⟨200, "error"⟩))
      "session1").1 =
      ("", some ⟨"getWebrtcToken", "api.webrtc.register_token.app_error", "", 500⟩) ∧
    (GetJanusWebrtcToken (sampleEnv (sampleCfg true "janus" "") (.ok ⟨200, "success"⟩))
      "session1").1 = ("c2Vzc2lvbjE=", none) := by
  decide

/-- The outcomes of the Kopano variant at the value `abc123` and at an
empty value, and the user name of the TURN credentials at 1699900000. -/
theorem GetKopanoWebmeetingsWebrtcToken_samples :
    (GetKopanoWebmeetingsWebrtcToken envKopano "session1").1 = ("abc123", none) ∧
    (GetKopanoWebmeetingsWebrtcToken
      (sampleEnv (sampleCfg true "kopano-webmeetings" "") (.ok ⟨200, ""⟩)) "session1").1 =
      ("", some ⟨"getWebrtcToken", "api.webrtc.register_token.app_error", "", 500⟩) ∧
    (GetWebrtcInfoForSession envJanusTurn "session1").1.1.map (fun r => r.TurnUsername) =
      some "1700006399:alice" := by
  decide

/-- The timestamps around the two changes of the clocks in New York: at a
call on 4 November 2017, 00:30, the end of 5 November, 174599 seconds later;
at a call on 10 March 2018, 23:30, the end of 11 March, 84599 seconds
later. -/
theorem EndOfDay_newYork_samples :
    (EndOfDay ((Time.mk 1509769800 0 newYork).AddDate 1)).Unix = 1509944399 ∧
    (1509944399 : Int) - 1509769800 = 174599 ∧
    (EndOfDay ((Time.mk 1520742600 0 newYork).AddDate 1)).Unix = 1520827199 ∧
    (1520827199 : Int) - 1520742600 = 84599 ∧
    (Time.mk 1509944399 0 newYork).Date = (Time.mk 1509769800 0 newYork).Date + 1 ∧
    (Time.mk 1520827199 0 newYork).Date = (Time.mk 1520742600 0 newYork).Date + 1 ∧
    (FormatInt 1509944399 10, FormatInt 0 10, FormatInt (-42) 10) =
      ("1509944399", "0", "-42") := by
  decide

end Webrtc
